import Mathlib

/- Verification of the jra-data-analysis repository:
   the query-result caching layer, cache-key derivation, analytical
   aggregate formulas (win_rate, top3_rate, roi, roi_rank), the
   finishing-position filters, and the feature utilities
   (create_race_id, normalize_numeric, calculate_win_rate, calculate_roi). -/

/-- Model of the Python scalar values that flow into cache keys and the
LIMIT clause: `None`, an integer, or a string. -/
inductive PyVal
  | none : PyVal
  | int : ℤ → PyVal
  | str : String → PyVal
deriving DecidableEq

/-- Python truthiness: `None` and `0` and `""` are falsy, everything else
modelled here is truthy.  Embeds the `if limit` / `if race_date` /
`if sire_id` tests in src/src/data/extraction.py. -/
def PyVal.truthy : PyVal → Bool
  | .none => false
  | .int n => n != 0
  | .str s => s != ""

/-- Python f-string formatting of a scalar, as used inside
f-strings such as `f"race_base_{start_year}_{end_year}_{limit}"`:
`None` prints as "None", integers print in decimal, strings verbatim. -/
def PyVal.fmt : PyVal → String
  | .none => "None"
  | .int n => toString n
  | .str s => s

/-- Embeds `limit_clause = f"LIMIT {limit}" if limit else ""` from
get_race_base_info (extraction.py line 18) and get_race_and_horse_data
(line 57). -/
def limit_clause (limit : PyVal) : String :=
  if limit.truthy then "LIMIT " ++ limit.fmt else ""

/-- Decimal value of a list of digit characters. -/
def digits_val (l : List Char) : ℤ :=
  l.foldl (fun acc c => 10 * acc + ((c.toNat : ℤ) - 48)) 0

/-- Semantics of the generated LIMIT fragment of the SQL engine
(external collaborator, not repository code): an empty fragment leaves
the result set unrestricted, `LIMIT n` truncates to the first n rows. -/
def sql_limit_result {α : Type} (rows : List α) (clause : String) : List α :=
  if clause = "" then rows
  else rows.take (digits_val (clause.data.drop 6)).toNat

/-- Embeds the cache key `f"race_base_{start_year}_{end_year}_{limit}"`
of get_race_base_info (extraction.py line 42). -/
def race_base_cache_key (start_year end_year : String) (limit : PyVal) : String :=
  "race_base_" ++ start_year ++ "_" ++ end_year ++ "_" ++ limit.fmt

/-- Embeds the cache key `f"race_horse_{start_year}_{end_year}_{limit}"`
of get_race_and_horse_data (extraction.py line 110). -/
def race_horse_cache_key (start_year end_year : String) (limit : PyVal) : String :=
  "race_horse_" ++ start_year ++ "_" ++ end_year ++ "_" ++ limit.fmt

/-- Embeds the cache key of get_horse_previous_races (extraction.py
lines 165-167): `"horse_prev_{horse_id}"`, extended by `"_{race_date}"`
only when race_date is truthy. -/
def horse_prev_cache_key (horse_id : String) (race_date : PyVal) : String :=
  "horse_prev_" ++ horse_id ++
    (if race_date.truthy then "_" ++ race_date.fmt else "")

/-- Embeds the cache key of get_sire_track_condition_stats
(extraction.py lines 317-319): `"sire_track_condition"`, extended by
`"_{sire_id}"` only when sire_id is truthy.  The parameters min_horses
and min_races are taken by the enclosing function but do not occur in
the key expression. -/
def sire_track_condition_cache_key (sire_id : PyVal)
    (min_horses min_races : ℤ) : String :=
  "sire_track_condition" ++
    (if sire_id.truthy then "_" ++ sire_id.fmt else "")

/-- One grouped row of the sire_condition_stats CTE, reduced to the two
aggregates tested by its HAVING clause. -/
structure SireGroup where
  horses_count : ℕ
  total_races : ℕ
deriving DecidableEq, Repr

/-- Embeds the HAVING clause of get_sire_track_condition_stats
(extraction.py lines 285-286): a group survives iff
`COUNT(DISTINCT ...) >= min_horses AND COUNT(*) >= min_races`. -/
def sire_having_filter (groups : List SireGroup)
    (min_horses min_races : ℤ) : List SireGroup :=
  groups.filter
    (fun g => min_horses ≤ (g.horses_count : ℤ) && min_races ≤ (g.total_races : ℤ))

/-- Result of one query_with_cache call: the returned table, the cache
store after the call, and how many times the database query ran. -/
structure CacheResult (α : Type) where
  result : α
  store : String → Option α
  computeCalls : ℕ

/-- Embeds query_with_cache (database.py lines 44-61).  The pickle
directory is modelled as a map from cache name to stored table; the
database query `execute_query(query, params)` is modelled by the table
`compute` it would return, with `computeCalls` counting its runs. -/
def query_with_cache {α : Type} (store : String → Option α)
    (cache_name : String) (force_refresh : Bool) (compute : α) : CacheResult α :=
  match force_refresh, store cache_name with
  | false, some df => ⟨df, store, 0⟩
  | _, _ => ⟨compute, fun k => if k = cache_name then some compute else store k, 1⟩

/-- PostgreSQL `ROUND(x, 2)` on NUMERIC values: round to 2 decimal
places, ties away from zero (external collaborator semantics; every use
in this repository is on a nonnegative value). -/
def round2 (q : ℚ) : ℚ :=
  if 0 ≤ q then ((⌊100 * q + 1 / 2⌋ : ℤ) : ℚ) / 100
  else -(((⌊-(100 * q) + 1 / 2⌋ : ℤ) : ℚ) / 100)

/-- Embeds the roi_rank CASE expression shared by get_jockey_course_stats
(extraction.py lines 224-230) and get_sire_track_condition_stats
(lines 306-312): the first matching WHEN arm wins. -/
def roi_rank (roi : ℚ) : String :=
  if 200 ≤ roi then "S"
  else if 100 ≤ roi then "A"
  else if 70 ≤ roi then "B"
  else if 50 ≤ roi then "C"
  else "D"

/-- Embeds the regex test `kakutei_chakujun ~ ^[0-9]+$` used by every
aggregate query (extraction.py lines 159, 207, 281): true iff the string
is nonempty and contains only ASCII digits. -/
def chakujun_matches_digits (s : String) : Bool :=
  !s.data.isEmpty && s.data.all Char.isDigit

/-- Embeds the combined WHERE filter on the finishing position:
`kakutei_chakujun ~ ^[0-9]+$ AND kakutei_chakujun NOT IN (00, 99)`
(extraction.py lines 159-160, 207-208, 281-282). -/
def chakujun_included (s : String) : Bool :=
  chakujun_matches_digits s && s != "00" && s != "99"

/-- Embeds `CAST(s AS INTEGER)` on a digit-only string: its decimal value.
Junk strings never reach this cast in the queries (the regex filter
precedes it). -/
def cast_int (s : String) : ℤ :=
  digits_val s.data

/-- Embeds `COUNT(*)` of a group after the WHERE filter on finishing position:
total_races (extraction.py lines 193, 269). -/
def agg_total_races (g : List String) : ℕ :=
  (g.filter chakujun_included).length

/-- Embeds `COUNT(*) FILTER (WHERE CAST(kakutei_chakujun AS INTEGER) = 1)` over
the filtered group: wins (extraction.py lines 194, 270). -/
def agg_wins (g : List String) : ℕ :=
  ((g.filter chakujun_included).filter (fun s => cast_int s == 1)).length

/-- Embeds `COUNT(*) FILTER (WHERE CAST(kakutei_chakujun AS INTEGER) <= 3)` over
the filtered group: top3 (extraction.py line 195). -/
def agg_top3 (g : List String) : ℕ :=
  ((g.filter chakujun_included).filter (fun s => cast_int s ≤ 3)).length

/-- SQL win_rate of a group, extraction.py line 196:
`ROUND(wins::NUMERIC / COUNT(*) * 100, 2)`. -/
def agg_win_rate (g : List String) : ℚ :=
  round2 ((agg_wins g : ℚ) / (agg_total_races g : ℚ) * 100)

/-- SQL top3_rate of a group, extraction.py line 197:
`ROUND(top3::NUMERIC / COUNT(*) * 100, 2)`. -/
def agg_top3_rate (g : List String) : ℚ :=
  round2 ((agg_top3 g : ℚ) / (agg_total_races g : ℚ) * 100)

/-- One jvd_se row as consumed by the group aggregation utilities: the
finishing position and the raw win odds, both database strings.  The
odds string is a decimal integer (odds stored times 10). -/
structure SeRow where
  kakutei_chakujun : String
  tansho_odds : String
deriving DecidableEq, Repr

/-- Numeric value of a raw odds string: Python
`float` applied to the raw odds and SQL `CAST(tansho_odds AS NUMERIC)` agree
on the decimal-integer odds strings this repository stores. -/
def parse_odds (s : String) : ℚ :=
  ((digits_val s.data : ℤ) : ℚ)

/-- Embeds calculate_win_rate (base_features.py lines 120-132): wins are
the rows whose finishing position is the exact string "01"; empty groups
yield 0.0.  No rounding is applied. -/
def calculate_win_rate (group : List SeRow) : ℚ :=
  if group.length = 0 then 0
  else ((group.filter (fun r => r.kakutei_chakujun == "01")).length : ℚ) /
        (group.length : ℚ) * 100

/-- Embeds the accumulation loop of calculate_roi (base_features.py
lines 149-151): add odds/10 for every row whose finishing position is
the exact string "01". -/
def total_return (group : List SeRow) : ℚ :=
  group.foldl
    (fun acc r =>
      if r.kakutei_chakujun == "01" then acc + parse_odds r.tansho_odds / 10
      else acc)
    0

/-- Embeds calculate_roi (base_features.py lines 134-153): sum of
winning payouts over group size times 100; empty groups yield 0.0.
No rounding is applied. -/
def calculate_roi (group : List SeRow) : ℚ :=
  if group.length = 0 then 0
  else total_return group / (group.length : ℚ) * 100

/-- SQL-side roi on the same in-memory rows, extraction.py line 199:
`ROUND(SUM(CASE WHEN CAST(kakutei_chakujun AS INTEGER) = 1 THEN
CAST(tansho_odds AS NUMERIC) / 10.0 ELSE 0 END) / COUNT(*) * 100, 2)`. -/
def sql_roi (group : List SeRow) : ℚ :=
  round2
    ((group.foldl
        (fun acc r =>
          if cast_int r.kakutei_chakujun = 1 then
            acc + parse_odds r.tansho_odds / 10
          else acc)
        0) / (group.length : ℚ) * 100)

/-- SQL-side win_rate on the same in-memory rows, extraction.py
line 196, with the winner condition `CAST(kakutei_chakujun AS INTEGER) = 1`. -/
def sql_win_rate (group : List SeRow) : ℚ :=
  round2 (((group.filter (fun r => cast_int r.kakutei_chakujun == 1)).length : ℚ) /
    (group.length : ℚ) * 100)

/-- pandas `df[column].min()` over the modelled numeric column. -/
def col_min : List ℚ → ℚ
  | [] => 0
  | x :: xs => xs.foldl min x

/-- pandas `df[column].max()` over the modelled numeric column. -/
def col_max : List ℚ → ℚ
  | [] => 0
  | x :: xs => xs.foldl max x

/-- Embeds the min_max branch of normalize_numeric (base_features.py
lines 99-100): the new `{column}_norm` column is
`(df[column] - min) / (max - min)` elementwise.  A zero denominator only
arises on a constant column, where the numerator is also zero and pandas
produces NaN, modelled as `none`. -/
def normalize_numeric_min_max (col : List ℚ) : List (Option ℚ) :=
  col.map
    (fun v =>
      if col_max col - col_min col = 0 then Option.none
      else some ((v - col_min col) / (col_max col - col_min col)))

/-- One result row as consumed by the ID utilities, holding the raw
string fields used in the f-strings. -/
structure RaceRow where
  kaisai_nen : String
  kaisai_tsukihi : String
  keibajo_code : String
  race_bango : String
  ketto_toroku_bango : String
deriving DecidableEq, Repr

/-- Embeds create_race_id (base_features.py lines 57-63):
the f-string joining kaisai_nen, kaisai_tsukihi, keibajo_code and
race_bango with no separator. -/
def create_race_id (row : RaceRow) : String :=
  row.kaisai_nen ++ row.kaisai_tsukihi ++ row.keibajo_code ++ row.race_bango

/-- Embeds create_horse_race_id (base_features.py lines 65-71):
the f-string joining race_id and ketto_toroku_bango with an
underscore. -/
def create_horse_race_id (row : RaceRow) : String :=
  create_race_id row ++ "_" ++ row.ketto_toroku_bango

/-- The fixed 10-row sample of the cross-validation property: 2 winning
rows with raw odds strings "30" and "50", 8 non-winning rows. -/
def sample10 : List SeRow :=
  [⟨"01", "30"⟩, ⟨"01", "50"⟩, ⟨"02", "80"⟩, ⟨"03", "40"⟩, ⟨"04", "120"⟩,
   ⟨"05", "60"⟩, ⟨"06", "90"⟩, ⟨"07", "200"⟩, ⟨"08", "35"⟩, ⟨"09", "15"⟩]

/-- A concrete cache store holding one entry, used by the C2 witness. -/
def c2store : String → Option ℕ :=
  fun k => if k = "race_base_2010_2023_None" then some 1 else Option.none

lemma round2_nonneg {q : ℚ} (hq : 0 ≤ q) : 0 ≤ round2 q := by
  unfold round2
  rw [if_pos hq]
  have h0 : (0 : ℤ) ≤ ⌊(100 : ℚ) * q + 1 / 2⌋ := Int.le_floor.mpr (by push_cast; linarith)
  have h1 : (0 : ℚ) ≤ ((⌊(100 : ℚ) * q + 1 / 2⌋ : ℤ) : ℚ) := by exact_mod_cast h0
  positivity

lemma round2_le_round2 {x y : ℚ} (hx : 0 ≤ x) (hxy : x ≤ y) :
    round2 x ≤ round2 y := by
  unfold round2
  rw [if_pos hx, if_pos (hx.trans hxy)]
  gcongr

lemma round2_hundred : round2 (100 : ℚ) = 100 := by
  unfold round2
  norm_num

/-- Counterexample to claim C9: concatenating the four raw fields of the
example row gives the 12-character id "202101010512", not the
14-character "20210101050112" stated by the claim (the latter cannot
arise from 4+4+2+2 fixed-width fields). -/
theorem C9_example_id_mismatch :
    create_race_id ⟨"2021", "0101", "05", "12", "1234567890"⟩ = "202101010512"
    ∧ create_race_id ⟨"2021", "0101", "05", "12", "1234567890"⟩ ≠ "20210101050112"
    ∧ create_horse_race_id ⟨"2021", "0101", "05", "12", "1234567890"⟩ =
        "202101010512_1234567890"
    ∧ create_horse_race_id ⟨"2021", "0101", "05", "12", "1234567890"⟩ ≠
        "20210101050112_1234567890" :=
  ⟨by decide, by decide, by decide, by decide⟩

/-- Claim C9 as amended: create_race_id concatenates the year, month-day,
course code, and race-number fields as raw strings with no separators,
and create_horse_race_id appends an underscore and the individual
identifier; on the example row the ids are "202101010512" and
"202101010512_1234567890", and the result is determined by the input
fields. -/
theorem C9_create_ids :
    (∀ row : RaceRow,
      create_race_id row =
        row.kaisai_nen ++ row.kaisai_tsukihi ++ row.keibajo_code ++ row.race_bango
      ∧ create_horse_race_id row = create_race_id row ++ "_" ++ row.ketto_toroku_bango)
    ∧ create_race_id ⟨"2021", "0101", "05", "12", "1234567890"⟩ = "202101010512"
    ∧ create_horse_race_id ⟨"2021", "0101", "05", "12", "1234567890"⟩ =
        "202101010512_1234567890" :=
  ⟨fun _ => ⟨rfl, rfl⟩, by decide, by decide⟩

/-- Claim C10: in get_race_base_info and get_race_and_horse_data a falsy
limit (None, and also 0) omits the LIMIT clause entirely, so limit=0
yields the full result set; only a truthy limit produces a LIMIT clause. -/
theorem C10_falsy_limit_omitted :
    limit_clause PyVal.none = ""
    ∧ limit_clause (PyVal.int 0) = ""
    ∧ (∀ (α : Type) (rows : List α),
        sql_limit_result rows (limit_clause (PyVal.int 0)) = rows
        ∧ sql_limit_result rows (limit_clause PyVal.none) = rows)
    ∧ (∀ n : ℤ, n ≠ 0 → limit_clause (PyVal.int n) = "LIMIT " ++ toString n)
    ∧ (∀ (α : Type) (rows : List α),
        sql_limit_result rows (limit_clause (PyVal.int 2)) = rows.take 2) := by
  refine ⟨rfl, rfl, fun α rows => ⟨rfl, rfl⟩, fun n hn => ?_, fun α rows => ?_⟩
  · have ht : (PyVal.int n).truthy = true := by
      simp [PyVal.truthy, hn]
    simp [limit_clause, ht, PyVal.fmt]
  · show sql_limit_result rows (limit_clause (PyVal.int 2)) = rows.take 2
    have hc : limit_clause (PyVal.int 2) = "LIMIT 2" := by decide
    rw [hc]
    unfold sql_limit_result
    rw [if_neg (by decide)]
    have hd : (digits_val ("LIMIT 2".data.drop 6)).toNat = 2 := by decide
    rw [hd]

/-- Witness for C10 at n = 5. -/
theorem C10_falsy_limit_omitted_witness :
    (5 : ℤ) ≠ 0 ∧ limit_clause (PyVal.int 5) = "LIMIT " ++ toString (5 : ℤ) :=
  ⟨by decide, C10_falsy_limit_omitted.2.2.2.1 5 (by decide)⟩

/-- Claim C2: query_with_cache with force_refresh false returns the
stored table unchanged without running the query when an entry exists;
otherwise (miss, or force_refresh true) it runs the query once, stores
the result under the key, and returns it; two consecutive calls with
force_refresh false return identical tables with the query run only on
the first call. -/
theorem C2_query_with_cache_contract {α : Type} (store : String → Option α)
    (key : String) (compute compute2 : α) :
    (∀ t, store key = some t →
      query_with_cache store key false compute = ⟨t, store, 0⟩)
    ∧ (store key = Option.none →
        query_with_cache store key false compute =
          ⟨compute, fun k => if k = key then some compute else store k, 1⟩)
    ∧ query_with_cache store key true compute =
        ⟨compute, fun k => if k = key then some compute else store k, 1⟩
    ∧ (query_with_cache
        (query_with_cache store key false compute).store key false compute2).result =
      (query_with_cache store key false compute).result
    ∧ (query_with_cache
        (query_with_cache store key false compute).store key false compute2).computeCalls = 0 := by
  refine ⟨fun t ht => ?_, fun ht => ?_, ?_, ?_, ?_⟩
  · simp [query_with_cache, ht]
  · simp [query_with_cache, ht]
  · simp [query_with_cache]
  · cases ht : store key with
    | none => simp [query_with_cache, ht]
    | some t => simp [query_with_cache, ht]
  · cases ht : store key with
    | none => simp [query_with_cache, ht]
    | some t => simp [query_with_cache, ht]

/-- Witness for C2: a hit returns the stored table with zero query runs,
a miss on the empty store computes, stores and returns the fresh table. -/
theorem C2_query_with_cache_contract_witness :
    query_with_cache c2store "race_base_2010_2023_None" false 2 = ⟨1, c2store, 0⟩
    ∧ query_with_cache (fun _ => (Option.none : Option ℕ)) "race_base_2010_2023_None" false 2 =
        ⟨2, fun k => if k = "race_base_2010_2023_None" then some 2 else Option.none, 1⟩ :=
  ⟨(C2_query_with_cache_contract c2store "race_base_2010_2023_None" 2 2).1 1 (by decide),
   (C2_query_with_cache_contract (fun _ => (Option.none : Option ℕ))
      "race_base_2010_2023_None" 2 2).2.1 rfl⟩

/-- Claim C3: roi_rank is a total, non-overlapping function of roi with
S iff roi ≥ 200, A iff 100 ≤ roi < 200, B iff 70 ≤ roi < 100, C iff
50 ≤ roi < 70, D otherwise; in particular roi = 200 maps to S, 100 to A
and 99.99 to B. -/
theorem C3_roi_rank_partition :
    (∀ roi : ℚ,
      (roi_rank roi = "S" ↔ 200 ≤ roi)
      ∧ (roi_rank roi = "A" ↔ 100 ≤ roi ∧ roi < 200)
      ∧ (roi_rank roi = "B" ↔ 70 ≤ roi ∧ roi < 100)
      ∧ (roi_rank roi = "C" ↔ 50 ≤ roi ∧ roi < 70)
      ∧ (roi_rank roi = "D" ↔ roi < 50))
    ∧ roi_rank 200 = "S" ∧ roi_rank 100 = "A" ∧ roi_rank (9999 / 100) = "B" := by
  refine ⟨fun roi => ?_, by norm_num [roi_rank], by norm_num [roi_rank],
    by norm_num [roi_rank]⟩
  unfold roi_rank
  split_ifs with h1 h2 h3 h4 <;>
    refine ⟨?_, ?_, ?_, ?_, ?_⟩ <;> simp <;>
      first
        | linarith
        | (constructor <;> linarith)
        | (rintro ⟨hx, hy⟩; linarith)
        | (intro hx; linarith)

lemma agg_wins_le_agg_top3 (g : List String) : agg_wins g ≤ agg_top3 g := by
  unfold agg_wins agg_top3
  refine List.Sublist.length_le ?_
  refine List.monotone_filter_right _ ?_
  intro a ha
  simp only [beq_iff_eq] at ha
  simp [ha]

lemma agg_top3_le_agg_total (g : List String) : agg_top3 g ≤ agg_total_races g := by
  unfold agg_top3 agg_total_races
  exact List.length_filter_le _ _

/-- Claim C8: for every group with total_races > 0, win_rate lies in
[0, 100] and top3_rate ≥ win_rate, where win_rate and top3_rate are the
rounded SQL percentage aggregates over the filtered rows. -/
theorem C8_rate_invariants (g : List String) (h : 0 < agg_total_races g) :
    0 ≤ agg_win_rate g ∧ agg_win_rate g ≤ 100 ∧ agg_win_rate g ≤ agg_top3_rate g := by
  have htq : (0 : ℚ) < (agg_total_races g : ℚ) := by exact_mod_cast h
  have hwq : (agg_wins g : ℚ) ≤ (agg_total_races g : ℚ) := by
    exact_mod_cast (agg_wins_le_agg_top3 g).trans (agg_top3_le_agg_total g)
  have hw0 : (0 : ℚ) ≤ (agg_wins g : ℚ) / (agg_total_races g : ℚ) * 100 := by positivity
  refine ⟨round2_nonneg hw0, ?_, ?_⟩
  · have hle : (agg_wins g : ℚ) / (agg_total_races g : ℚ) * 100 ≤ 100 := by
      rw [div_mul_eq_mul_div, div_le_iff₀ htq]
      nlinarith
    calc agg_win_rate g ≤ round2 100 := round2_le_round2 hw0 hle
      _ = 100 := round2_hundred
  · refine round2_le_round2 hw0 ?_
    have h3q : (agg_wins g : ℚ) ≤ (agg_top3 g : ℚ) := by
      exact_mod_cast agg_wins_le_agg_top3 g
    gcongr

/-- Witness for C8 on the concrete group ["01", "04"]: two counted
rows, one win, one top3 entry, win_rate = top3_rate = 50. -/
theorem C8_rate_invariants_witness :
    0 < agg_total_races ["01", "04"]
    ∧ (0 ≤ agg_win_rate ["01", "04"]
        ∧ agg_win_rate ["01", "04"] ≤ 100
        ∧ agg_win_rate ["01", "04"] ≤ agg_top3_rate ["01", "04"]) :=
  ⟨by decide, C8_rate_invariants ["01", "04"] (by decide)⟩

/-- Counterexample to claim C1: the cache keys of
get_sire_track_condition_stats for min_horses = 3 and min_horses = 4
coincide although min_horses changes the HAVING filter and hence the
output: the group with 3 distinct horses and 10 races survives the
first threshold pair and not the second. -/
theorem C1_sire_key_collision :
    sire_track_condition_cache_key PyVal.none 3 10 =
      sire_track_condition_cache_key PyVal.none 4 10
    ∧ sire_having_filter [⟨3, 10⟩] 3 10 ≠ sire_having_filter [⟨3, 10⟩] 4 10 :=
  ⟨rfl, by decide⟩

/-- Claim C1 as amended: key derivation is deterministic, and
get_race_base_info keys separate calls whose limit values print
differently, but the get_sire_track_condition_stats key is derived from
sire_id alone, so calls differing only in the output-affecting
thresholds min_horses and min_races share one key. -/
theorem C1_cache_keys :
    (∀ (sid : PyVal) (mh mr mh2 mr2 : ℤ),
      sire_track_condition_cache_key sid mh mr =
        sire_track_condition_cache_key sid mh2 mr2)
    ∧ (∀ (sy ey : String) (l l2 : PyVal),
        race_base_cache_key sy ey l = race_base_cache_key sy ey l2 →
          l.fmt = l2.fmt)
    ∧ (∀ (h : String) (d d2 : PyVal), d.fmt = d2.fmt → d.truthy = d2.truthy →
        horse_prev_cache_key h d = horse_prev_cache_key h d2) := by
  refine ⟨fun sid mh mr mh2 mr2 => rfl, fun sy ey l l2 hkey => ?_,
    fun h d d2 hf ht => ?_⟩
  · have hd := congrArg String.data hkey
    simp only [race_base_cache_key, String.data_append,
      List.append_assoc, List.append_cancel_left_eq] at hd
    exact String.ext hd
  · simp [horse_prev_cache_key, hf, ht]

/-- Witness for C1 at concrete parameters: equal limits give equal
race_base keys, hence equal printed limit values. -/
theorem C1_cache_keys_witness :
    race_base_cache_key "2010" "2023" PyVal.none =
      race_base_cache_key "2010" "2023" PyVal.none
    ∧ (PyVal.none).fmt = (PyVal.none).fmt :=
  ⟨rfl, C1_cache_keys.2.1 "2010" "2023" PyVal.none PyVal.none rfl⟩

/-- Counterexample to claim C4: the finishing position "0" is not a
well-formed positive integer string (its integer value is 0), yet it
passes the regex-and-sentinel filter and counts toward total_races and,
because CAST gives 0 <= 3, toward top3 as well. -/
theorem C4_zero_position_counted :
    chakujun_included "0" = true
    ∧ cast_int "0" = 0
    ∧ agg_total_races ["0"] = 1
    ∧ agg_top3 ["0"] = 1
    ∧ agg_wins ["0"] = 0 := by
  refine ⟨by decide, by decide, by decide, by decide, by decide⟩

/-- Claim C4 as amended: a row is excluded from total_races, wins and
top3 exactly when its finishing position is not a nonempty digit-only
string or equals the sentinels "00" or "99"; digit strings denoting
zero other than "00" (such as "0" or "000") are retained. -/
theorem C4_position_filter (s : String) (g : List String)
    (h : chakujun_included s = false) :
    agg_total_races (s :: g) = agg_total_races g
    ∧ agg_wins (s :: g) = agg_wins g
    ∧ agg_top3 (s :: g) = agg_top3 g
    ∧ (chakujun_included s = false ↔
        chakujun_matches_digits s = false ∨ s = "00" ∨ s = "99") := by
  refine ⟨?_, ?_, ?_, ?_⟩
  · simp [agg_total_races, List.filter_cons, h]
  · simp [agg_wins, List.filter_cons, h]
  · simp [agg_top3, List.filter_cons, h]
  · constructor
    · intro hc
      by_cases h1 : chakujun_matches_digits s = true
      case neg => exact Or.inl (Bool.eq_false_iff.mpr h1)
      case pos =>
        by_cases h2 : s = "00"
        · exact Or.inr (Or.inl h2)
        · by_cases h3 : s = "99"
          · exact Or.inr (Or.inr h3)
          · exfalso
            rw [chakujun_included, h1] at hc
            simp [h2, h3] at hc
    · intro hc
      rcases hc with hc | hc | hc
      · simp [chakujun_included, hc]
      · simp [chakujun_included, hc]
      · simp [chakujun_included, hc]

/-- Witness for C4 on the sentinel "99" prepended to the group ["01"]:
the aggregates are unchanged by the excluded row. -/
theorem C4_position_filter_witness :
    chakujun_included "99" = false
    ∧ (agg_total_races ["99", "01"] = agg_total_races ["01"]
        ∧ agg_wins ["99", "01"] = agg_wins ["01"]
        ∧ agg_top3 ["99", "01"] = agg_top3 ["01"]
        ∧ (chakujun_included "99" = false ↔
            chakujun_matches_digits "99" = false ∨ "99" = "00" ∨ "99" = "99")) :=
  ⟨by decide, C4_position_filter "99" ["01"] (by decide)⟩

/-- Counterexample to claim C5: the in-memory and SQL-side roi are not
numerically identical for every row set.  On a 3-row group with one win
at raw odds "10" the in-memory calculate_roi keeps the exact value
100/3 while the SQL side rounds to 33.33; and on a single row whose
finishing position is written "1" instead of "01" the in-memory
string-equality test misses the win entirely (0 versus 100). -/
theorem C5_roi_divergence :
    calculate_roi [⟨"01", "10"⟩, ⟨"02", "20"⟩, ⟨"03", "15"⟩] = 100 / 3
    ∧ sql_roi [⟨"01", "10"⟩, ⟨"02", "20"⟩, ⟨"03", "15"⟩] = 3333 / 100
    ∧ calculate_roi [⟨"01", "10"⟩, ⟨"02", "20"⟩, ⟨"03", "15"⟩] ≠
        sql_roi [⟨"01", "10"⟩, ⟨"02", "20"⟩, ⟨"03", "15"⟩]
    ∧ calculate_roi [⟨"1", "10"⟩] = 0
    ∧ sql_roi [⟨"1", "10"⟩] = 100 := by
  have h10 : parse_odds "10" = 10 := by
    have h : digits_val "10".data = 10 := by decide
    simp [parse_odds, h]
  have e1 : (("01" : String) == "01") = true := by decide
  have e2 : (("02" : String) == "01") = false := by decide
  have e3 : (("03" : String) == "01") = false := by decide
  have ex : (("1" : String) == "01") = false := by decide
  have c1 : cast_int "01" = 1 := by decide
  have c2 : cast_int "02" = 2 := by decide
  have c3 : cast_int "03" = 3 := by decide
  have cx : cast_int "1" = 1 := by decide
  have hroi : calculate_roi [⟨"01", "10"⟩, ⟨"02", "20"⟩, ⟨"03", "15"⟩] = 100 / 3 := by
    norm_num [calculate_roi, total_return, List.foldl, h10, e1, e2, e3]
  have hsql : sql_roi [⟨"01", "10"⟩, ⟨"02", "20"⟩, ⟨"03", "15"⟩] = 3333 / 100 := by
    norm_num [sql_roi, List.foldl, round2, h10, c1, c2, c3]
  refine ⟨hroi, hsql, ?_, ?_, ?_⟩
  · rw [hroi, hsql]
    norm_num
  · norm_num [calculate_roi, total_return, List.foldl, ex]
  · norm_num [sql_roi, List.foldl, round2, h10, cx]

/-- Claim C5 as amended: on the fixed 10-row sample with winners coded
"01" at raw odds "30" and "50", the in-memory calculate_roi and the
SQL-side roi both yield exactly 80, and calculate_win_rate and the
SQL-side win_rate both yield exactly 20; the general bit-for-bit
equality fails because calculate_roi and calculate_win_rate omit the
2-decimal rounding and match winners by the exact string "01". -/
theorem C5_sample10_cross_validation :
    calculate_roi sample10 = 80
    ∧ sql_roi sample10 = 80
    ∧ calculate_roi sample10 = sql_roi sample10
    ∧ calculate_win_rate sample10 = 20
    ∧ sql_win_rate sample10 = 20
    ∧ calculate_win_rate sample10 = sql_win_rate sample10 := by
  have e1 : (("01" : String) == "01") = true := by decide
  have e2 : (("02" : String) == "01") = false := by decide
  have e3 : (("03" : String) == "01") = false := by decide
  have e4 : (("04" : String) == "01") = false := by decide
  have e5 : (("05" : String) == "01") = false := by decide
  have e6 : (("06" : String) == "01") = false := by decide
  have e7 : (("07" : String) == "01") = false := by decide
  have e8 : (("08" : String) == "01") = false := by decide
  have e9 : (("09" : String) == "01") = false := by decide
  have b1 : (cast_int "01" == 1) = true := by decide
  have b2 : (cast_int "02" == 1) = false := by decide
  have b3 : (cast_int "03" == 1) = false := by decide
  have b4 : (cast_int "04" == 1) = false := by decide
  have b5 : (cast_int "05" == 1) = false := by decide
  have b6 : (cast_int "06" == 1) = false := by decide
  have b7 : (cast_int "07" == 1) = false := by decide
  have b8 : (cast_int "08" == 1) = false := by decide
  have b9 : (cast_int "09" == 1) = false := by decide
  have c1 : cast_int "01" = 1 := by decide
  have c2 : cast_int "02" = 2 := by decide
  have c3 : cast_int "03" = 3 := by decide
  have c4 : cast_int "04" = 4 := by decide
  have c5 : cast_int "05" = 5 := by decide
  have c6 : cast_int "06" = 6 := by decide
  have c7 : cast_int "07" = 7 := by decide
  have c8 : cast_int "08" = 8 := by decide
  have c9 : cast_int "09" = 9 := by decide
  have o30 : parse_odds "30" = 30 := by
    have h : digits_val "30".data = 30 := by decide
    simp [parse_odds, h]
  have o50 : parse_odds "50" = 50 := by
    have h : digits_val "50".data = 50 := by decide
    simp [parse_odds, h]
  have hroi : calculate_roi sample10 = 80 := by
    norm_num [calculate_roi, sample10, total_return, List.foldl,
      e1, e2, e3, e4, e5, e6, e7, e8, e9, o30, o50]
  have hsql : sql_roi sample10 = 80 := by
    norm_num [sql_roi, sample10, List.foldl, round2,
      c1, c2, c3, c4, c5, c6, c7, c8, c9, o30, o50]
  have hwin : calculate_win_rate sample10 = 20 := by
    norm_num [calculate_win_rate, sample10, List.filter,
      e1, e2, e3, e4, e5, e6, e7, e8, e9]
  have hsqlwin : sql_win_rate sample10 = 20 := by
    norm_num [sql_win_rate, sample10, List.filter, round2,
      b1, b2, b3, b4, b5, b6, b7, b8, b9]
  exact ⟨hroi, hsql, by rw [hroi, hsql], hwin, hsqlwin, by rw [hwin, hsqlwin]⟩

/-- Counterexample to claim C6: on the constant column [5, 5] the
min_max normalization divides 0 by 0 and yields NaN for every entry
(modelled as none); no DegenerateRangeError is raised anywhere in
normalize_numeric, which returns a value for every input. -/
theorem C6_constant_column_nan :
    normalize_numeric_min_max [5, 5] = [Option.none, Option.none] := by
  norm_num [normalize_numeric_min_max, col_min, col_max, List.foldl]

lemma foldl_min_replicate (c : ℚ) (n : ℕ) :
    (List.replicate n c).foldl min c = c := by
  induction n with
  | zero => rfl
  | succ n ih => simp [List.replicate_succ, List.foldl_cons, min_self, ih]

lemma foldl_max_replicate (c : ℚ) (n : ℕ) :
    (List.replicate n c).foldl max c = c := by
  induction n with
  | zero => rfl
  | succ n ih => simp [List.replicate_succ, List.foldl_cons, max_self, ih]

/-- Claim C6 as amended: min_max normalization maps each value v to
(v - min) / (max - min) — on a column with min 10 and max 20 the values
10, 15, 20 map to 0, 0.5, 1 — but on every constant column it divides
0 by 0 and produces NaN (none) in every entry instead of failing with a
DegenerateRangeError. -/
theorem C6_normalize_min_max :
    normalize_numeric_min_max [10, 15, 20] = [some 0, some (1 / 2), some 1]
    ∧ (∀ (c : ℚ) (n : ℕ),
        normalize_numeric_min_max (List.replicate (n + 1) c) =
          List.replicate (n + 1) Option.none) := by
  constructor
  · have hmin : col_min [10, 15, 20] = 10 := by norm_num [col_min, List.foldl]
    have hmax : col_max [10, 15, 20] = 20 := by norm_num [col_max, List.foldl]
    norm_num [normalize_numeric_min_max, hmin, hmax]
  · intro c n
    have hmin : col_min (List.replicate (n + 1) c) = c := by
      rw [List.replicate_succ]
      simp [col_min, foldl_min_replicate]
    have hmax : col_max (List.replicate (n + 1) c) = c := by
      rw [List.replicate_succ]
      simp [col_max, foldl_max_replicate]
    simp [normalize_numeric_min_max, hmin, hmax, List.map_replicate]

/-- Counterexample to claim C7: a non-integer caller-supplied limit is
spliced verbatim into the query text with no validation and no
ValidationError: the generated fragments contain the raw strings. -/
theorem C7_unvalidated_splice :
    limit_clause (PyVal.str "abc") = "LIMIT abc"
    ∧ limit_clause (PyVal.str "5; DROP TABLE jvd_ra") =
        "LIMIT 5; DROP TABLE jvd_ra" :=
  ⟨by decide, by decide⟩

/-- Claim C7 as amended: the limit builder of get_race_base_info and
get_race_and_horse_data performs no validation at all: every truthy
value, integer or not, is interpolated verbatim after "LIMIT ", and a
falsy value omits the clause; no ValidationError exists in the code. -/
theorem C7_limit_splice_behavior :
    (∀ s : String, s ≠ "" → limit_clause (PyVal.str s) = "LIMIT " ++ s)
    ∧ (∀ n : ℤ, n ≠ 0 → limit_clause (PyVal.int n) = "LIMIT " ++ toString n)
    ∧ limit_clause PyVal.none = "" := by
  refine ⟨fun s hs => ?_, fun n hn => ?_, rfl⟩
  · have ht : (PyVal.str s).truthy = true := by simp [PyVal.truthy, hs]
    simp [limit_clause, ht, PyVal.fmt]
  · have ht : (PyVal.int n).truthy = true := by simp [PyVal.truthy, hn]
    simp [limit_clause, ht, PyVal.fmt]

/-- Witness for C7 at the concrete non-integer limit "xyz". -/
theorem C7_limit_splice_behavior_witness :
    ("xyz" : String) ≠ "" ∧ limit_clause (PyVal.str "xyz") = "LIMIT " ++ "xyz" :=
  ⟨by decide, C7_limit_splice_behavior.1 "xyz" (by decide)⟩
